import Mathlib

/-!
Verification of the ATAG One thermostat client (Homey app).

The development shallowly embeds the core logic of the repository:
the API client (lib/AtagOneApi.ts) and the device poller / flow-card
logic of the device class (drivers/atagone/device.ts).  Machine numbers
on the thermometer side are JavaScript doubles holding small decimal
values; they are modelled as rationals, with JavaScript rounding
(Math.round x = floor (x + 1/2)) made explicit.  Network effects are
modelled by passing the received reply (or the resulting error) as an
explicit argument.
-/

namespace AtagOne

/-- Authorization status codes from the thermostat (enum AuthStatus). -/
inductive AuthStatus
  | NOT_AVAILABLE
  | PENDING
  | GRANTED
  | DENIED
deriving DecidableEq, Repr

/-- Numeric wire code of each authorization status (enum values 0..3). -/
def AuthStatus.code : AuthStatus → Nat
  | .NOT_AVAILABLE => 0
  | .PENDING => 1
  | .GRANTED => 2
  | .DENIED => 3

/-- Info flag for the retrieve message (enum MessageInfo). -/
def MessageInfo.CONTROL : Nat := 1

/-- Info flag for the retrieve message (enum MessageInfo). -/
def MessageInfo.SCHEDULES : Nat := 2

/-- Info flag for the retrieve message (enum MessageInfo). -/
def MessageInfo.CONFIGURATION : Nat := 4

/-- Info flag for the retrieve message (enum MessageInfo). -/
def MessageInfo.REPORT : Nat := 8

/-- Info flag for the retrieve message (enum MessageInfo). -/
def MessageInfo.STATUS : Nat := 16

/-- Info flag for the retrieve message (enum MessageInfo). -/
def MessageInfo.WIFI : Nat := 32

/-- Info flag for the retrieve message (enum MessageInfo). -/
def MessageInfo.DETAILS : Nat := 64

/-- The error taxonomy of the client.  In the source these are thrown
Error values distinguished by message; here they are constructors. -/
inductive ApiError
  | connectionError
  | requestTimeout
  | parseError
  | invalidPairResponse
  | authorizationTimeout
  | invalidRetrieveResponse
  | authorizationDenied
  | authorizationPending
deriving DecidableEq, Repr

/-- The `status` block of a retrieve reply.  Only the field read by
`getData` is modelled; the other optional fields of the TypeScript
interface are never read by the client. -/
structure RetrieveStatus where
  device_id : Option String
deriving DecidableEq, Repr

/-- The `report` block of a retrieve reply.  Only the fields read by
`getData` are modelled; the remaining optional fields of the TypeScript
interface are never read by the client. -/
structure RetrieveReport where
  room_temp : Option ℚ
  outside_temp : Option ℚ
  ch_water_pres : Option ℚ
  boiler_status : Option Nat
deriving DecidableEq, Repr

/-- The `control` block of a retrieve reply.  Only the field read by
`getData` is modelled. -/
structure RetrieveControl where
  ch_mode_temp : Option ℚ
deriving DecidableEq, Repr

/-- The inner `retrieve_reply` object. -/
structure RetrieveReply where
  seqnr : Option Nat
  status : Option RetrieveStatus
  report : Option RetrieveReport
  control : Option RetrieveControl
  acc_status : Option Nat
deriving DecidableEq, Repr

/-- A decoded retrieve response (interface RetrieveResponse). -/
structure RetrieveResponse where
  retrieve_reply : Option RetrieveReply
deriving DecidableEq, Repr

/-- The snapshot assembled by `getData` (interface ThermostatData).
All fields are optional in the TypeScript interface; `getData` always
fills the three boolean flags. -/
structure ThermostatData where
  deviceId : Option String
  roomTemperature : Option ℚ
  targetTemperature : Option ℚ
  outsideTemperature : Option ℚ
  waterPressure : Option ℚ
  boilerHeating : Option Bool
  hotWaterActive : Option Bool
  flameOn : Option Bool
deriving DecidableEq, Repr

/-- The info bitmask `getData` passes to `retrieve`:
CONTROL | REPORT | STATUS. -/
def getDataInfoFlags : Nat :=
  MessageInfo.CONTROL ||| MessageInfo.REPORT ||| MessageInfo.STATUS

/-- The pure part of `getData`: decoding of the received retrieve
response into a ThermostatData snapshot or an error.  Mirrors the body
of `getData` after the `retrieve` call. -/
def decodeGetData (response : RetrieveResponse) : Except ApiError ThermostatData :=
  match response.retrieve_reply with
  | none => Except.error ApiError.invalidRetrieveResponse
  | some reply =>
    if reply.acc_status = some AuthStatus.DENIED.code then
      Except.error ApiError.authorizationDenied
    else if reply.acc_status = some AuthStatus.PENDING.code then
      Except.error ApiError.authorizationPending
    else
      let boilerStatus := (reply.report.bind RetrieveReport.boiler_status).getD 0
      Except.ok
        { deviceId := reply.status.bind RetrieveStatus.device_id
          roomTemperature := reply.report.bind RetrieveReport.room_temp
          targetTemperature := reply.control.bind RetrieveControl.ch_mode_temp
          outsideTemperature := reply.report.bind RetrieveReport.outside_temp
          waterPressure := reply.report.bind RetrieveReport.ch_water_pres
          boilerHeating := some (boilerStatus &&& 8 != 0)
          hotWaterActive := some (boilerStatus &&& 4 != 0)
          flameOn := some ((boilerStatus &&& 8 != 0) || (boilerStatus &&& 4 != 0)) }

/-- JavaScript Math.round: round half toward positive infinity. -/
def jsRound (x : ℚ) : ℤ := ⌊x + 1 / 2⌋

/-- Class constant MIN_TEMP. -/
def MIN_TEMP : ℚ := 4

/-- Class constant MAX_TEMP. -/
def MAX_TEMP : ℚ := 27

/-- The `ch_mode_temp` value sent by `setTargetTemperature`:
round to 0.5 steps, then clamp to [MIN_TEMP, MAX_TEMP]. -/
def setTargetTemperatureSent (temperature : ℚ) : ℚ :=
  let temp : ℚ := (jsRound (temperature * 2) : ℚ) / 2
  max MIN_TEMP (min MAX_TEMP temp)

/-- The transform as the specification words it:
max(4, min(27, round(t*2)/2)). -/
def clampAndRoundSpec (t : ℚ) : ℚ :=
  max 4 (min 27 ((jsRound (t * 2) : ℚ) / 2))

deriving instance DecidableEq for Except

/-- Observable outcome of one `waitForAuthorization` call: the returned
status (or thrown error), how many times `pair` was called, how many
times the loop slept for `intervalMs`, and the statuses handed to the
`onStatus` callback, in order. -/
structure WaitResult where
  result : Except ApiError AuthStatus
  pairCalls : Nat
  sleeps : Nat
  observed : List AuthStatus
deriving DecidableEq, Repr

/-- The loop body of `waitForAuthorization`, over the stream of statuses
the successive `pair` calls return.  Each iteration calls `pair`, passes
the status to `onStatus`, returns on GRANTED or DENIED, and otherwise
sleeps before the next attempt; an exhausted attempt budget throws the
authorization-timeout error. -/
def waitAux (statuses : Nat → AuthStatus) : Nat → WaitResult
  | 0 => ⟨Except.error ApiError.authorizationTimeout, 0, 0, []⟩
  | remaining + 1 =>
    let s := statuses 0
    if s = AuthStatus.GRANTED ∨ s = AuthStatus.DENIED then
      ⟨Except.ok s, 1, 0, [s]⟩
    else
      let w := waitAux (fun i => statuses (i + 1)) remaining
      ⟨w.result, w.pairCalls + 1, w.sleeps + 1, s :: w.observed⟩

/-- `waitForAuthorization(maxAttempts, intervalMs, onStatus)`, with the
statuses returned by the successive `pair` calls given as a stream. -/
def waitForAuthorization (statuses : Nat → AuthStatus) (maxAttempts : Nat) : WaitResult :=
  waitAux statuses maxAttempts

/-- The mutable connection fields of the AtagOneApi instance. -/
structure ApiConnectionState where
  ipAddress : String
  macAddress : String
  deviceName : String
  email : String
deriving DecidableEq, Repr

/-- A settings patch argument of updateSettings: every field optional. -/
structure SettingsPatch where
  ipAddress : Option String
  macAddress : Option String
  deviceName : Option String
  email : Option String
deriving DecidableEq, Repr

/-- `normalizeMacAddress`: drop every colon and dash, then uppercase each
character. -/
def normalizeMacAddress (mac : String) : String :=
  String.mk ((mac.toList.filter (fun c => c != ':' && c != '-')).map Char.toUpper)

/-- `updateSettings`: each field is overwritten only when the patch
field is truthy in the JavaScript sense (present and not the empty
string); the MAC address is normalized before storage. -/
def updateSettings (st : ApiConnectionState) (patch : SettingsPatch) : ApiConnectionState :=
  let ip := match patch.ipAddress with
    | some v => if v != "" then v else st.ipAddress
    | none => st.ipAddress
  let mac := match patch.macAddress with
    | some v => if v != "" then normalizeMacAddress v else st.macAddress
    | none => st.macAddress
  let name := match patch.deviceName with
    | some v => if v != "" then v else st.deviceName
    | none => st.deviceName
  let mail := match patch.email with
    | some v => if v != "" then v else st.email
    | none => st.email
  ⟨ip, mac, name, mail⟩

/-- Change events surfaced by the poller: the flow trigger cards fired
by `updateCapabilitiesAndTriggerFlows`, each with its token value. -/
inductive ChangeEvent
  | temperatureChanged (temperature : ℚ)
  | targetTemperatureChanged (temperature : ℚ)
  | pressureChanged (pressure : ℚ)
  | pressureTooLow (pressure : ℚ)
  | boilerStarted
  | boilerStopped
deriving DecidableEq, Repr

/-- The run listener registered on the pressure_too_low card:
fires when the state pressure is below the threshold argument. -/
def pressureTooLowRunListener (threshold pressure : ℚ) : Bool :=
  pressure < threshold

/-- The device-class state the poller reads and writes: the previous
values used for change detection, the capability values written by
setCapabilityValue (pressure converted to mbar), and availability. -/
structure PollerState where
  prevRoomTemp : Option ℚ
  prevTargetTemp : Option ℚ
  prevPressure : Option ℚ
  prevBoilerHeating : Option Bool
  capMeasureTemperature : Option ℚ
  capTargetTemperature : Option ℚ
  capMeasurePressure : Option ℚ
  capAlarmBoiler : Option Bool
  available : Bool
deriving DecidableEq, Repr

/-- Room-temperature block of `updateCapabilitiesAndTriggerFlows`. -/
def updateRoomTemp (st : PollerState) (d : ThermostatData) : PollerState × List ChangeEvent :=
  match d.roomTemperature with
  | none => (st, [])
  | some t =>
    let evs := match st.prevRoomTemp with
      | some p => if p ≠ t then [ChangeEvent.temperatureChanged t] else []
      | none => []
    ({ st with capMeasureTemperature := some t, prevRoomTemp := some t }, evs)

/-- Target-temperature block of `updateCapabilitiesAndTriggerFlows`. -/
def updateTargetTemp (st : PollerState) (d : ThermostatData) : PollerState × List ChangeEvent :=
  match d.targetTemperature with
  | none => (st, [])
  | some t =>
    let evs := match st.prevTargetTemp with
      | some p => if p ≠ t then [ChangeEvent.targetTemperatureChanged t] else []
      | none => []
    ({ st with capTargetTemperature := some t, prevTargetTemp := some t }, evs)

/-- Water-pressure block of `updateCapabilitiesAndTriggerFlows`: the
capability gets the value in mbar; on a change both the
pressure_changed and the pressure_too_low cards are triggered. -/
def updatePressure (st : PollerState) (d : ThermostatData) : PollerState × List ChangeEvent :=
  match d.waterPressure with
  | none => (st, [])
  | some p =>
    let evs := match st.prevPressure with
      | some q =>
        if q ≠ p then [ChangeEvent.pressureChanged p, ChangeEvent.pressureTooLow p] else []
      | none => []
    ({ st with capMeasurePressure := some (p * 1000), prevPressure := some p }, evs)

/-- Boiler-heating block of `updateCapabilitiesAndTriggerFlows`. -/
def updateBoiler (st : PollerState) (d : ThermostatData) : PollerState × List ChangeEvent :=
  match d.boilerHeating with
  | none => (st, [])
  | some b =>
    let evs := match st.prevBoilerHeating with
      | some p =>
        if p ≠ b then
          (if b then [ChangeEvent.boilerStarted] else [ChangeEvent.boilerStopped])
        else []
      | none => []
    ({ st with capAlarmBoiler := some b, prevBoilerHeating := some b }, evs)

/-- `updateCapabilitiesAndTriggerFlows`: the four blocks in source
order, collecting the triggered events in order. -/
def updateCapabilitiesAndTriggerFlows (st : PollerState) (d : ThermostatData) :
    PollerState × List ChangeEvent :=
  let r1 := updateRoomTemp st d
  let r2 := updateTargetTemp r1.1 d
  let r3 := updatePressure r2.1 d
  let r4 := updateBoiler r3.1 d
  (r4.1, r1.2 ++ r2.2 ++ r3.2 ++ r4.2)

/-- One `pollData` cycle, with the outcome of the `getData` call passed
explicitly: on success the capabilities are updated, flows triggered
and the device marked available; on any error the cycle only marks the
device unavailable. -/
def pollData (st : PollerState) (fetched : Except ApiError ThermostatData) :
    PollerState × List ChangeEvent :=
  match fetched with
  | Except.ok d =>
    let r := updateCapabilitiesAndTriggerFlows st d
    ({ r.1 with available := true }, r.2)
  | Except.error _ => ({ st with available := false }, [])

/-- Device state right after onInit, before the first poll: no previous
values, no capability values written yet, device available. -/
def initialPollerState : PollerState :=
  ⟨none, none, none, none, none, none, none, none, true⟩

/-- A run of consecutive poll cycles, returning the final state and the
events of each cycle. -/
def pollRun (st : PollerState) : List (Except ApiError ThermostatData) →
    PollerState × List (List ChangeEvent)
  | [] => (st, [])
  | f :: fs =>
    let r := pollData st f
    let rest := pollRun r.1 fs
    (rest.1, r.2 :: rest.2)

/-- State of the boost (set_temperature_duration) machinery: the
target_temperature capability, the last value sent to the device, the
stored previousTemperature field, the boostTimeout handle, the set of
timers the runtime still has scheduled, the next fresh timer id, and a
log of the restorations that actually executed. -/
structure BoostState where
  capabilityTarget : ℚ
  lastApiSetTemp : Option ℚ
  previousTemperature : Option ℚ
  boostTimeout : Option Nat
  liveTimers : List Nat
  nextTimerId : Nat
  restoredLog : List ℚ
deriving DecidableEq, Repr

/-- The run listener of the set_temperature_duration action card:
store the current capability value in previousTemperature, send and
store the new temperature, clear any existing boost timeout, and
schedule a fresh restoration timeout. -/
def setTemperatureDurationAction (st : BoostState) (temperature : ℚ) : BoostState :=
  let st1 : BoostState :=
    { st with previousTemperature := some st.capabilityTarget
              lastApiSetTemp := some (setTargetTemperatureSent temperature)
              capabilityTarget := temperature }
  let live := match st1.boostTimeout with
    | some tid => st1.liveTimers.erase tid
    | none => st1.liveTimers
  { st1 with liveTimers := st1.nextTimerId :: live
             boostTimeout := some st1.nextTimerId
             nextTimerId := st1.nextTimerId + 1 }

/-- Expiry of a scheduled timeout: a timer that has been cleared never
fires; a live timer fires once, running the boost-restoration callback,
which restores previousTemperature (read at fire time) when set. -/
def fireTimer (st : BoostState) (tid : Nat) : BoostState :=
  if tid ∈ st.liveTimers then
    let st1 : BoostState := { st with liveTimers := st.liveTimers.erase tid }
    match st1.previousTemperature with
    | some p =>
      { st1 with lastApiSetTemp := some (setTargetTemperatureSent p)
                 capabilityTarget := p
                 restoredLog := st1.restoredLog ++ [p] }
    | none => st1
  else st

/-- A sample decoded retrieve reply: authorized (acc_status GRANTED),
boiler status 12 = bits 8 and 4 both set. -/
def sampleReply : RetrieveReply :=
  ⟨some 1, none, some ⟨none, none, none, some 12⟩, none, some 2⟩

/-- A snapshot carrying only a water pressure of 1.2 bar. -/
def samplePressureData : ThermostatData :=
  ⟨none, none, none, none, some (6 / 5), none, none, none⟩

/-- A snapshot with fixed temperatures and pressure and the given
boiler-heating and hot-water flags. -/
def sampleBoilerData (b hw : Bool) : ThermostatData :=
  ⟨none, some 20, some 18, none, some (6 / 5), some b, some hw, some (b || hw)⟩

/-! ## Theorems -/

lemma jsRound_intCast (m : ℤ) : jsRound (m : ℚ) = m := by
  unfold jsRound
  rw [add_comm, Int.floor_add_int]
  norm_num

lemma setTargetTemperatureSent_def (t : ℚ) :
    setTargetTemperatureSent t = max 4 (min 27 ((jsRound (t * 2) : ℚ) / 2)) := rfl

lemma setTargetTemperatureSent_lb (t : ℚ) : 4 ≤ setTargetTemperatureSent t := by
  rw [setTargetTemperatureSent_def]
  exact le_max_left _ _

lemma setTargetTemperatureSent_ub (t : ℚ) : setTargetTemperatureSent t ≤ 27 := by
  rw [setTargetTemperatureSent_def]
  exact max_le (by norm_num) (min_le_left _ _)

lemma setTargetTemperatureSent_half (t : ℚ) :
    ∃ m : ℤ, setTargetTemperatureSent t = (m : ℚ) / 2 := by
  rw [setTargetTemperatureSent_def]
  rcases le_total ((jsRound (t * 2) : ℚ) / 2) 27 with h27 | h27
  · rw [min_eq_right h27]
    rcases le_total ((jsRound (t * 2) : ℚ) / 2) 4 with h4 | h4
    · exact ⟨8, by rw [max_eq_left h4]; norm_num⟩
    · exact ⟨jsRound (t * 2), by rw [max_eq_right h4]⟩
  · exact ⟨54, by rw [min_eq_left h27, max_eq_right (by norm_num : (4 : ℚ) ≤ 27)]; norm_num⟩

lemma setTargetTemperatureSent_fixed (m : ℤ) (h4 : 4 ≤ (m : ℚ) / 2) (h27 : (m : ℚ) / 2 ≤ 27) :
    setTargetTemperatureSent ((m : ℚ) / 2) = (m : ℚ) / 2 := by
  rw [setTargetTemperatureSent_def]
  have hm : ((m : ℚ) / 2) * 2 = (m : ℚ) := by ring
  rw [hm, jsRound_intCast, min_eq_right h27, max_eq_right h4]

/-- C5: for every temperature input t, `setTargetTemperature` sends
`ch_mode_temp = max(4, min(27, round(t*2)/2))` (t rounded to the nearest
0.5, half up as JavaScript Math.round, then clamped to [4, 27]), and the
transform is idempotent. -/
theorem setTargetTemperature_clamp_round_idempotent (t : ℚ) :
    setTargetTemperatureSent t = clampAndRoundSpec t ∧
    setTargetTemperatureSent (setTargetTemperatureSent t) = setTargetTemperatureSent t := by
  refine ⟨rfl, ?_⟩
  obtain ⟨m, hm⟩ := setTargetTemperatureSent_half t
  have h4 := setTargetTemperatureSent_lb t
  have h27 := setTargetTemperatureSent_ub t
  rw [hm] at h4 h27 ⊢
  exact setTargetTemperatureSent_fixed m h4 h27

lemma waitAux_timeout (statuses : Nat → AuthStatus) (n : Nat)
    (h : ∀ i, i < n → ¬(statuses i = AuthStatus.GRANTED ∨ statuses i = AuthStatus.DENIED)) :
    waitAux statuses n =
      ⟨Except.error ApiError.authorizationTimeout, n, n, (List.range n).map statuses⟩ := by
  induction n generalizing statuses with
  | zero => simp [waitAux]
  | succ n ih =>
    have h0 : ¬(statuses 0 = AuthStatus.GRANTED ∨ statuses 0 = AuthStatus.DENIED) :=
      h 0 (Nat.succ_pos n)
    have hs : ∀ i, i < n →
        ¬(statuses (i + 1) = AuthStatus.GRANTED ∨ statuses (i + 1) = AuthStatus.DENIED) :=
      fun i hi => h (i + 1) (Nat.succ_lt_succ hi)
    simp only [waitAux, if_neg h0, ih (fun i => statuses (i + 1)) hs]
    simp [List.range_succ_eq_map, List.map_map, Function.comp]

lemma waitAux_success (statuses : Nat → AuthStatus) (n k : Nat) (hk : k < n)
    (hterm : statuses k = AuthStatus.GRANTED ∨ statuses k = AuthStatus.DENIED)
    (hmin : ∀ i, i < k → ¬(statuses i = AuthStatus.GRANTED ∨ statuses i = AuthStatus.DENIED)) :
    waitAux statuses n =
      ⟨Except.ok (statuses k), k + 1, k, (List.range (k + 1)).map statuses⟩ := by
  induction k generalizing statuses n with
  | zero =>
    obtain ⟨m, rfl⟩ : ∃ m, n = m + 1 := ⟨n - 1, by omega⟩
    simp only [waitAux, if_pos hterm]
    simp [List.range_succ_eq_map]
  | succ k ih =>
    obtain ⟨m, rfl⟩ : ∃ m, n = m + 1 := ⟨n - 1, by omega⟩
    have h0 : ¬(statuses 0 = AuthStatus.GRANTED ∨ statuses 0 = AuthStatus.DENIED) :=
      hmin 0 (Nat.succ_pos k)
    have hrec := ih (fun i => statuses (i + 1)) m (by omega) hterm
      (fun i hi => hmin (i + 1) (by omega))
    simp only [waitAux, if_neg h0, hrec]
    simp [List.range_succ_eq_map, List.map_map, Function.comp]

/-- C3: `waitForAuthorization` calls `pair` up to maxAttempts times,
reporting every status to the `onStatus` callback; it returns the status
as soon as an attempt yields GRANTED or DENIED, having made exactly k+1
pair calls and k sleeps when the terminal status arrives at attempt k
(so it never sleeps after the final attempt); if every attempt yields a
non-terminal status it throws the authorization-timeout error after
exactly maxAttempts attempts. -/
theorem waitForAuthorization_correct (statuses : Nat → AuthStatus) (maxAttempts k : Nat) :
    (k < maxAttempts →
      (statuses k = AuthStatus.GRANTED ∨ statuses k = AuthStatus.DENIED) →
      (∀ i, i < k → ¬(statuses i = AuthStatus.GRANTED ∨ statuses i = AuthStatus.DENIED)) →
      waitForAuthorization statuses maxAttempts =
        ⟨Except.ok (statuses k), k + 1, k, (List.range (k + 1)).map statuses⟩) ∧
    ((∀ i, i < maxAttempts →
        ¬(statuses i = AuthStatus.GRANTED ∨ statuses i = AuthStatus.DENIED)) →
      waitForAuthorization statuses maxAttempts =
        ⟨Except.error ApiError.authorizationTimeout, maxAttempts, maxAttempts,
          (List.range maxAttempts).map statuses⟩) :=
  ⟨fun hk ht hm => waitAux_success statuses maxAttempts k hk ht hm,
   fun h => waitAux_timeout statuses maxAttempts h⟩

/-- Witness for C3: the status sequence [PENDING, PENDING, GRANTED] with
maxAttempts = 5 returns GRANTED after exactly 3 pair calls and 2 sleeps;
all-PENDING with maxAttempts = 3 times out after exactly 3 attempts. -/
theorem waitForAuthorization_correct_witness :
    waitForAuthorization (fun i => if i < 2 then AuthStatus.PENDING else AuthStatus.GRANTED) 5 =
      ⟨Except.ok AuthStatus.GRANTED, 3, 2,
        [AuthStatus.PENDING, AuthStatus.PENDING, AuthStatus.GRANTED]⟩ ∧
    waitForAuthorization (fun _ => AuthStatus.PENDING) 3 =
      ⟨Except.error ApiError.authorizationTimeout, 3, 3,
        [AuthStatus.PENDING, AuthStatus.PENDING, AuthStatus.PENDING]⟩ := by
  constructor
  · have h := (waitForAuthorization_correct
        (fun i => if i < 2 then AuthStatus.PENDING else AuthStatus.GRANTED) 5 2).1
      (by omega) (by decide) (fun i hi => by interval_cases i <;> decide)
    rw [h]; decide
  · have h := (waitForAuthorization_correct (fun _ => AuthStatus.PENDING) 3 0).2
      (fun i _ => by decide)
    rw [h]; decide

/-- C2: a poll cycle whose `getData` fails emits no events, leaves every
stored previous value (and every capability value) unchanged and marks
the device unavailable; and a retrieve reply with acc_status DENIED
makes `getData` fail with the authorization-denied error. -/
theorem pollData_failure_skips_cycle (st : PollerState) (e : ApiError) (reply : RetrieveReply) :
    pollData st (Except.error e) = ({ st with available := false }, []) ∧
    (reply.acc_status = some AuthStatus.DENIED.code →
      decodeGetData ⟨some reply⟩ = Except.error ApiError.authorizationDenied) := by
  refine ⟨rfl, fun h => ?_⟩
  simp [decodeGetData, h]

/-- Witness for C2 at a concrete state and a concrete DENIED reply. -/
theorem pollData_failure_skips_cycle_witness :
    pollData initialPollerState (Except.error ApiError.connectionError) =
      ({ initialPollerState with available := false }, []) ∧
    decodeGetData ⟨some ⟨none, none, none, none, some 3⟩⟩ =
      Except.error ApiError.authorizationDenied := by
  have h := pollData_failure_skips_cycle initialPollerState ApiError.connectionError
    ⟨none, none, none, none, some 3⟩
  exact ⟨h.1, h.2 rfl⟩

/-- C7: on the very first successful poll (no previous values recorded)
the poller emits zero change events, whatever the fetched snapshot, and
records the fetched values as the baseline for the next diff. -/
theorem first_poll_emits_no_events (d : ThermostatData) :
    pollData initialPollerState (Except.ok d) =
      (⟨d.roomTemperature, d.targetTemperature, d.waterPressure, d.boilerHeating,
        d.roomTemperature, d.targetTemperature,
        Option.map (fun p => p * 1000) d.waterPressure, d.boilerHeating, true⟩, []) := by
  obtain ⟨dev, rt, tt, ot, wp, bh, hw, fl⟩ := d
  cases rt <;> cases tt <;> cases wp <;> cases bh <;>
    simp [pollData, updateCapabilitiesAndTriggerFlows, updateRoomTemp, updateTargetTemp,
      updatePressure, updateBoiler, initialPollerState]

lemma and_eight_ne_zero (n : Nat) : (n &&& 8 != 0) = n.testBit 3 := by
  have h8 : (8 : Nat) = 2 ^ 3 := by norm_num
  rw [h8, Nat.and_two_pow]
  cases n.testBit 3 <;> simp

lemma and_four_ne_zero (n : Nat) : (n &&& 4 != 0) = n.testBit 2 := by
  have h4 : (4 : Nat) = 2 ^ 2 := by norm_num
  rw [h4, Nat.and_two_pow]
  cases n.testBit 2 <;> simp

/-- C4: `getData` requests the CONTROL, REPORT and STATUS info bits; for
every decoded retrieve reply it fails with the authorization-denied
error exactly when acc_status is the DENIED code, with the
authorization-pending error exactly when acc_status is the PENDING code,
and with any other (or absent) acc_status it returns a snapshot whose
boilerHeating flag is bit value 8 of the boiler status bitmask,
hotWaterActive is bit value 4, and flameOn is their disjunction. -/
theorem getData_auth_and_boiler_bits (reply : RetrieveReply) :
    (getDataInfoFlags = MessageInfo.CONTROL ||| MessageInfo.REPORT ||| MessageInfo.STATUS ∧
      getDataInfoFlags = 25) ∧
    (decodeGetData ⟨some reply⟩ = Except.error ApiError.authorizationDenied ↔
      reply.acc_status = some AuthStatus.DENIED.code) ∧
    (decodeGetData ⟨some reply⟩ = Except.error ApiError.authorizationPending ↔
      reply.acc_status = some AuthStatus.PENDING.code) ∧
    (reply.acc_status ≠ some AuthStatus.DENIED.code →
      reply.acc_status ≠ some AuthStatus.PENDING.code →
      ∃ d : ThermostatData, decodeGetData ⟨some reply⟩ = Except.ok d ∧
        d.boilerHeating =
          some (Nat.testBit ((reply.report.bind RetrieveReport.boiler_status).getD 0) 3) ∧
        d.hotWaterActive =
          some (Nat.testBit ((reply.report.bind RetrieveReport.boiler_status).getD 0) 2) ∧
        d.flameOn =
          some (Nat.testBit ((reply.report.bind RetrieveReport.boiler_status).getD 0) 3 ||
            Nat.testBit ((reply.report.bind RetrieveReport.boiler_status).getD 0) 2)) := by
  refine ⟨⟨rfl, rfl⟩, ?_, ?_, ?_⟩
  · by_cases h3 : reply.acc_status = some AuthStatus.DENIED.code
    · simp [decodeGetData, h3]
    · by_cases h1 : reply.acc_status = some AuthStatus.PENDING.code
      · simp [decodeGetData, h3, h1]
      · simp [decodeGetData, h3, h1]
  · by_cases h3 : reply.acc_status = some AuthStatus.DENIED.code
    · have hne : reply.acc_status ≠ some AuthStatus.PENDING.code := by
        rw [h3]; simp [AuthStatus.code]
      simp [decodeGetData, h3, hne, AuthStatus.code]
    · by_cases h1 : reply.acc_status = some AuthStatus.PENDING.code
      · simp [decodeGetData, h3, h1, AuthStatus.code]
      · simp [decodeGetData, h3, h1]
  · intro h3 h1
    have hok : decodeGetData ⟨some reply⟩ = Except.ok
        { deviceId := reply.status.bind RetrieveStatus.device_id
          roomTemperature := reply.report.bind RetrieveReport.room_temp
          targetTemperature := reply.control.bind RetrieveControl.ch_mode_temp
          outsideTemperature := reply.report.bind RetrieveReport.outside_temp
          waterPressure := reply.report.bind RetrieveReport.ch_water_pres
          boilerHeating :=
            some ((reply.report.bind RetrieveReport.boiler_status).getD 0 &&& 8 != 0)
          hotWaterActive :=
            some ((reply.report.bind RetrieveReport.boiler_status).getD 0 &&& 4 != 0)
          flameOn :=
            some (((reply.report.bind RetrieveReport.boiler_status).getD 0 &&& 8 != 0) ||
              ((reply.report.bind RetrieveReport.boiler_status).getD 0 &&& 4 != 0)) } := by
      simp [decodeGetData, h3, h1]
    exact ⟨_, hok, by simp [and_eight_ne_zero], by simp [and_four_ne_zero],
      by simp [and_eight_ne_zero, and_four_ne_zero]⟩

/-- Witness for C4 at the sample reply (authorized, boiler status 12):
both bits set, so all three flags decode to true. -/
theorem getData_auth_and_boiler_bits_witness :
    Except.map ThermostatData.boilerHeating (decodeGetData ⟨some sampleReply⟩) =
      Except.ok (some true) ∧
    Except.map ThermostatData.hotWaterActive (decodeGetData ⟨some sampleReply⟩) =
      Except.ok (some true) ∧
    Except.map ThermostatData.flameOn (decodeGetData ⟨some sampleReply⟩) =
      Except.ok (some true) := by
  obtain ⟨d, hd, hb, hw, hf⟩ :=
    (getData_auth_and_boiler_bits sampleReply).2.2.2 (by decide) (by decide)
  rw [hd]
  exact ⟨congrArg Except.ok (hb.trans (by decide)),
    congrArg Except.ok (hw.trans (by decide)),
    congrArg Except.ok (hf.trans (by decide))⟩

/-- C8 counterexample: a patch whose ipAddress field is present but
holds the empty string does not overwrite the stored value (JavaScript
truthiness check), contradicting the claim that every present field
ends up holding the patch value. -/
theorem updateSettings_empty_string_keeps_previous :
    (updateSettings ⟨"10.0.0.1", "AABB", "One", "a@b.c"⟩
      ⟨some "", none, none, none⟩).ipAddress = "10.0.0.1" ∧
    ("10.0.0.1" : String) ≠ "" := by
  exact ⟨rfl, by decide⟩

/-- C8 (amended): after `updateSettings(patch)`, every field present in
the patch with a non-empty value holds the patch value — the MAC address
normalized first — and every field that is absent, or present with the
empty string, retains its previous value. -/
theorem updateSettings_truthy_merge (st : ApiConnectionState) (patch : SettingsPatch) :
    (∀ v, patch.ipAddress = some v → v ≠ "" → (updateSettings st patch).ipAddress = v) ∧
    ((patch.ipAddress = none ∨ patch.ipAddress = some "") →
      (updateSettings st patch).ipAddress = st.ipAddress) ∧
    (∀ v, patch.macAddress = some v → v ≠ "" →
      (updateSettings st patch).macAddress = normalizeMacAddress v) ∧
    ((patch.macAddress = none ∨ patch.macAddress = some "") →
      (updateSettings st patch).macAddress = st.macAddress) ∧
    (∀ v, patch.deviceName = some v → v ≠ "" → (updateSettings st patch).deviceName = v) ∧
    ((patch.deviceName = none ∨ patch.deviceName = some "") →
      (updateSettings st patch).deviceName = st.deviceName) ∧
    (∀ v, patch.email = some v → v ≠ "" → (updateSettings st patch).email = v) ∧
    ((patch.email = none ∨ patch.email = some "") →
      (updateSettings st patch).email = st.email) := by
  obtain ⟨ip, mac, name, mail⟩ := patch
  refine ⟨?_, ?_, ?_, ?_, ?_, ?_, ?_, ?_⟩ <;>
    first
    | (intro v hv hne
       subst hv
       simp [updateSettings, hne])
    | (rintro (rfl | rfl) <;> simp [updateSettings])

/-- Witness for C8 at a concrete state and patch: non-empty present
fields overwrite (MAC normalized), absent and empty fields are kept. -/
theorem updateSettings_truthy_merge_witness :
    (updateSettings ⟨"1.2.3.4", "OLDMAC", "OldName", "old@x"⟩
      ⟨some "5.6.7.8", some "aa:bb-cc", none, some ""⟩).ipAddress = "5.6.7.8" ∧
    (updateSettings ⟨"1.2.3.4", "OLDMAC", "OldName", "old@x"⟩
      ⟨some "5.6.7.8", some "aa:bb-cc", none, some ""⟩).macAddress = "AABBCC" ∧
    (updateSettings ⟨"1.2.3.4", "OLDMAC", "OldName", "old@x"⟩
      ⟨some "5.6.7.8", some "aa:bb-cc", none, some ""⟩).deviceName = "OldName" ∧
    (updateSettings ⟨"1.2.3.4", "OLDMAC", "OldName", "old@x"⟩
      ⟨some "5.6.7.8", some "aa:bb-cc", none, some ""⟩).email = "old@x" := by
  have h := updateSettings_truthy_merge ⟨"1.2.3.4", "OLDMAC", "OldName", "old@x"⟩
    ⟨some "5.6.7.8", some "aa:bb-cc", none, some ""⟩
  refine ⟨h.1 "5.6.7.8" rfl (by decide), ?_, h.2.2.2.2.2.1 (Or.inl rfl),
    h.2.2.2.2.2.2.2 (Or.inr rfl)⟩
  exact (h.2.2.1 "aa:bb-cc" rfl (by decide)).trans (by decide)

lemma updateRoomTemp_preserves (st : PollerState) (d : ThermostatData) :
    (updateRoomTemp st d).1.prevTargetTemp = st.prevTargetTemp ∧
    (updateRoomTemp st d).1.prevPressure = st.prevPressure ∧
    (updateRoomTemp st d).1.prevBoilerHeating = st.prevBoilerHeating := by
  cases hrt : d.roomTemperature <;> simp [updateRoomTemp, hrt]

lemma updateTargetTemp_preserves (st : PollerState) (d : ThermostatData) :
    (updateTargetTemp st d).1.prevRoomTemp = st.prevRoomTemp ∧
    (updateTargetTemp st d).1.prevPressure = st.prevPressure ∧
    (updateTargetTemp st d).1.prevBoilerHeating = st.prevBoilerHeating := by
  cases htt : d.targetTemperature <;> simp [updateTargetTemp, htt]

lemma updatePressure_preserves (st : PollerState) (d : ThermostatData) :
    (updatePressure st d).1.prevRoomTemp = st.prevRoomTemp ∧
    (updatePressure st d).1.prevTargetTemp = st.prevTargetTemp ∧
    (updatePressure st d).1.prevBoilerHeating = st.prevBoilerHeating := by
  cases hwp : d.waterPressure <;> simp [updatePressure, hwp]

lemma updateRoomTemp_events_only (st : PollerState) (d : ThermostatData) :
    ∀ e ∈ (updateRoomTemp st d).2, ∃ t, e = ChangeEvent.temperatureChanged t := by
  intro e he
  cases hrt : d.roomTemperature with
  | none => simp [updateRoomTemp, hrt] at he
  | some t =>
    cases hp : st.prevRoomTemp with
    | none => simp [updateRoomTemp, hrt, hp] at he
    | some q =>
      simp only [updateRoomTemp, hrt, hp] at he
      split at he
      · simp at he; exact ⟨t, he⟩
      · simp at he

lemma updateTargetTemp_events_only (st : PollerState) (d : ThermostatData) :
    ∀ e ∈ (updateTargetTemp st d).2, ∃ t, e = ChangeEvent.targetTemperatureChanged t := by
  intro e he
  cases htt : d.targetTemperature with
  | none => simp [updateTargetTemp, htt] at he
  | some t =>
    cases hp : st.prevTargetTemp with
    | none => simp [updateTargetTemp, htt, hp] at he
    | some q =>
      simp only [updateTargetTemp, htt, hp] at he
      split at he
      · simp at he; exact ⟨t, he⟩
      · simp at he

lemma updatePressure_events_only (st : PollerState) (d : ThermostatData) :
    ∀ e ∈ (updatePressure st d).2,
      ∃ q, e = ChangeEvent.pressureChanged q ∨ e = ChangeEvent.pressureTooLow q := by
  intro e he
  cases hwp : d.waterPressure with
  | none => simp [updatePressure, hwp] at he
  | some p =>
    cases hp : st.prevPressure with
    | none => simp [updatePressure, hwp, hp] at he
    | some q =>
      simp only [updatePressure, hwp, hp] at he
      split at he
      · simp at he
        rcases he with he | he
        · exact ⟨p, Or.inl he⟩
        · exact ⟨p, Or.inr he⟩
      · simp at he

lemma updateBoiler_events_only (st : PollerState) (d : ThermostatData) :
    ∀ e ∈ (updateBoiler st d).2,
      e = ChangeEvent.boilerStarted ∨ e = ChangeEvent.boilerStopped := by
  intro e he
  cases hbh : d.boilerHeating with
  | none => simp [updateBoiler, hbh] at he
  | some b =>
    cases hp : st.prevBoilerHeating with
    | none => simp [updateBoiler, hbh, hp] at he
    | some q =>
      simp only [updateBoiler, hbh, hp] at he
      split at he
      · cases b <;> simp at he <;> simp [he]
      · simp at he

lemma updatePressure_events_iff (st : PollerState) (d : ThermostatData) (p : ℚ)
    (hp : d.waterPressure = some p) :
    (ChangeEvent.pressureChanged p ∈ (updatePressure st d).2 ↔
      ∃ q, st.prevPressure = some q ∧ q ≠ p) ∧
    (ChangeEvent.pressureTooLow p ∈ (updatePressure st d).2 ↔
      ∃ q, st.prevPressure = some q ∧ q ≠ p) := by
  cases hq : st.prevPressure with
  | none => simp [updatePressure, hp, hq]
  | some q =>
    by_cases hne : q = p
    · subst hne; simp [updatePressure, hp, hq]
    · simp [updatePressure, hp, hq, hne]

lemma updateBoiler_events_iff (st : PollerState) (d : ThermostatData) (b : Bool)
    (hb : d.boilerHeating = some b) :
    (ChangeEvent.boilerStarted ∈ (updateBoiler st d).2 ↔
      (st.prevBoilerHeating = some false ∧ b = true)) ∧
    (ChangeEvent.boilerStopped ∈ (updateBoiler st d).2 ↔
      (st.prevBoilerHeating = some true ∧ b = false)) := by
  cases hq : st.prevBoilerHeating with
  | none => simp [updateBoiler, hb, hq]
  | some pb => cases pb <;> cases b <;> simp [updateBoiler, hb, hq]

lemma pollData_ok_events (st : PollerState) (d : ThermostatData) :
    (pollData st (Except.ok d)).2 =
      (updateRoomTemp st d).2 ++ (updateTargetTemp (updateRoomTemp st d).1 d).2 ++
      (updatePressure (updateTargetTemp (updateRoomTemp st d).1 d).1 d).2 ++
      (updateBoiler (updatePressure (updateTargetTemp (updateRoomTemp st d).1 d).1 d).1 d).2 :=
  rfl

/-- C1 counterexample: a second poll cycle whose snapshot carries the
unchanged pressure 1.2 bar triggers neither the pressure_changed nor
the pressure_too_low card — the pressure-below-threshold check is not
evaluated on cycles where the pressure did not change. -/
theorem pressureTooLow_not_evaluated_when_unchanged :
    samplePressureData.waterPressure = some (6 / 5) ∧
    (pollData (pollData initialPollerState (Except.ok samplePressureData)).1
      (Except.ok samplePressureData)).2 = [] := by
  refine ⟨rfl, ?_⟩
  simp [pollData, updateCapabilitiesAndTriggerFlows, updateRoomTemp, updateTargetTemp,
    updatePressure, updateBoiler, samplePressureData, initialPollerState]

/-- C1 (amended): on a poll cycle whose snapshot carries a pressure
value, the pressure_changed card fires exactly when the value differs
from the value of the previous snapshot, and the PressureBelowThreshold
trigger is evaluated exactly on those cycles on which pressure_changed
fires — not independently of change. -/
theorem pressure_events_iff_changed (st : PollerState) (d : ThermostatData) (p : ℚ)
    (hp : d.waterPressure = some p) :
    (ChangeEvent.pressureChanged p ∈ (pollData st (Except.ok d)).2 ↔
      ∃ q, st.prevPressure = some q ∧ q ≠ p) ∧
    (ChangeEvent.pressureTooLow p ∈ (pollData st (Except.ok d)).2 ↔
      ChangeEvent.pressureChanged p ∈ (pollData st (Except.ok d)).2) := by
  have hpres : (updateTargetTemp (updateRoomTemp st d).1 d).1.prevPressure = st.prevPressure :=
    ((updateTargetTemp_preserves (updateRoomTemp st d).1 d).2.1).trans
      ((updateRoomTemp_preserves st d).2.1)
  have key := updatePressure_events_iff (updateTargetTemp (updateRoomTemp st d).1 d).1 d p hp
  rw [hpres] at key
  have hC : ChangeEvent.pressureChanged p ∈ (pollData st (Except.ok d)).2 ↔
      ∃ q, st.prevPressure = some q ∧ q ≠ p := by
    rw [pollData_ok_events]
    simp only [List.mem_append]
    constructor
    · rintro (((h | h) | h) | h)
      · obtain ⟨t, ht⟩ := updateRoomTemp_events_only st d _ h; simp at ht
      · obtain ⟨t, ht⟩ := updateTargetTemp_events_only (updateRoomTemp st d).1 d _ h; simp at ht
      · exact key.1.mp h
      · rcases updateBoiler_events_only
          (updatePressure (updateTargetTemp (updateRoomTemp st d).1 d).1 d).1 d _ h with
          ht | ht <;> simp at ht
    · intro hq
      exact Or.inl (Or.inr (key.1.mpr hq))
  have hT : ChangeEvent.pressureTooLow p ∈ (pollData st (Except.ok d)).2 ↔
      ∃ q, st.prevPressure = some q ∧ q ≠ p := by
    rw [pollData_ok_events]
    simp only [List.mem_append]
    constructor
    · rintro (((h | h) | h) | h)
      · obtain ⟨t, ht⟩ := updateRoomTemp_events_only st d _ h; simp at ht
      · obtain ⟨t, ht⟩ := updateTargetTemp_events_only (updateRoomTemp st d).1 d _ h; simp at ht
      · exact key.2.mp h
      · rcases updateBoiler_events_only
          (updatePressure (updateTargetTemp (updateRoomTemp st d).1 d).1 d).1 d _ h with
          ht | ht <;> simp at ht
    · intro hq
      exact Or.inl (Or.inr (key.2.mpr hq))
  exact ⟨hC, hT.trans hC.symm⟩

/-- Witness for the amended C1: with previous pressure 1 bar and a new
snapshot at 1.2 bar, both the pressure_changed and the pressure_too_low
cards are triggered. -/
theorem pressure_events_iff_changed_witness :
    ChangeEvent.pressureChanged (6 / 5) ∈
      (pollData ⟨none, none, some 1, none, none, none, none, none, true⟩
        (Except.ok samplePressureData)).2 ∧
    ChangeEvent.pressureTooLow (6 / 5) ∈
      (pollData ⟨none, none, some 1, none, none, none, none, none, true⟩
        (Except.ok samplePressureData)).2 := by
  have h := pressure_events_iff_changed ⟨none, none, some 1, none, none, none, none, none, true⟩
    samplePressureData (6 / 5) rfl
  have hc := h.1.mpr ⟨1, rfl, by norm_num⟩
  exact ⟨hc, h.2.mpr hc⟩

/-- C6: the boiler_started card fires exactly on a false-to-true
transition of the boiler-heating flag relative to the previous snapshot
and boiler_stopped exactly on a true-to-false transition; hot-water or
flame changes alone fire neither. -/
theorem boiler_transition_events (st : PollerState) (d : ThermostatData) (b : Bool)
    (hb : d.boilerHeating = some b) :
    (ChangeEvent.boilerStarted ∈ (pollData st (Except.ok d)).2 ↔
      (st.prevBoilerHeating = some false ∧ b = true)) ∧
    (ChangeEvent.boilerStopped ∈ (pollData st (Except.ok d)).2 ↔
      (st.prevBoilerHeating = some true ∧ b = false)) := by
  have hpres : (updatePressure (updateTargetTemp (updateRoomTemp st d).1 d).1 d).1.prevBoilerHeating
      = st.prevBoilerHeating := by
    rw [(updatePressure_preserves (updateTargetTemp (updateRoomTemp st d).1 d).1 d).2.2,
      (updateTargetTemp_preserves (updateRoomTemp st d).1 d).2.2,
      (updateRoomTemp_preserves st d).2.2]
  have key := updateBoiler_events_iff
    (updatePressure (updateTargetTemp (updateRoomTemp st d).1 d).1 d).1 d b hb
  rw [hpres] at key
  constructor
  · rw [pollData_ok_events]
    simp only [List.mem_append]
    constructor
    · rintro (((h | h) | h) | h)
      · obtain ⟨t, ht⟩ := updateRoomTemp_events_only st d _ h; simp at ht
      · obtain ⟨t, ht⟩ := updateTargetTemp_events_only (updateRoomTemp st d).1 d _ h; simp at ht
      · obtain ⟨q, hq⟩ := updatePressure_events_only
          (updateTargetTemp (updateRoomTemp st d).1 d).1 d _ h
        rcases hq with hq | hq <;> simp at hq
      · exact key.1.mp h
    · intro hq
      exact Or.inr (key.1.mpr hq)
  · rw [pollData_ok_events]
    simp only [List.mem_append]
    constructor
    · rintro (((h | h) | h) | h)
      · obtain ⟨t, ht⟩ := updateRoomTemp_events_only st d _ h; simp at ht
      · obtain ⟨t, ht⟩ := updateTargetTemp_events_only (updateRoomTemp st d).1 d _ h; simp at ht
      · obtain ⟨q, hq⟩ := updatePressure_events_only
          (updateTargetTemp (updateRoomTemp st d).1 d).1 d _ h
        rcases hq with hq | hq <;> simp at hq
      · exact key.2.mp h
    · intro hq
      exact Or.inr (key.2.mpr hq)

/-- Witness for C6: a false-to-true transition fires boiler_started,
and over the boiler-flag sequence [false, true, true, false] (with
temperatures and pressure held fixed and the hot-water flag varying)
the four cycles emit exactly [boiler_started] then [boiler_stopped],
with no event for the repeated true. -/
theorem boiler_transition_events_witness :
    ChangeEvent.boilerStarted ∈
      (pollData ⟨some 20, some 18, some (6 / 5), some false, none, none, none, none, true⟩
        (Except.ok (sampleBoilerData true false))).2 ∧
    (pollRun initialPollerState
      [Except.ok (sampleBoilerData false false), Except.ok (sampleBoilerData true false),
       Except.ok (sampleBoilerData true true), Except.ok (sampleBoilerData false false)]).2 =
      [[], [ChangeEvent.boilerStarted], [], [ChangeEvent.boilerStopped]] := by
  constructor
  · exact (boiler_transition_events
      ⟨some 20, some 18, some (6 / 5), some false, none, none, none, none, true⟩
      (sampleBoilerData true false) true rfl).1.mpr ⟨rfl, rfl⟩
  · simp [pollRun, pollData, updateCapabilitiesAndTriggerFlows, updateRoomTemp,
      updateTargetTemp, updatePressure, updateBoiler, sampleBoilerData, initialPollerState]

/-- C9: scheduling a second temperature-duration override before the
the restoration of the first fires clears the first boost timeout: the
timer of the first override is no longer live (firing it is a no-op, so
its restoration never executes), while firing the second boost timer
executes exactly one restoration. -/
theorem second_override_cancels_first (st : BoostState) (t1 t2 : ℚ)
    (hfresh : ∀ tid ∈ st.liveTimers, tid < st.nextTimerId) :
    st.nextTimerId ∉
      (setTemperatureDurationAction (setTemperatureDurationAction st t1) t2).liveTimers ∧
    fireTimer (setTemperatureDurationAction (setTemperatureDurationAction st t1) t2)
        st.nextTimerId =
      setTemperatureDurationAction (setTemperatureDurationAction st t1) t2 ∧
    (fireTimer (setTemperatureDurationAction (setTemperatureDurationAction st t1) t2)
        (setTemperatureDurationAction st t1).nextTimerId).restoredLog.length =
      (setTemperatureDurationAction
        (setTemperatureDurationAction st t1) t2).restoredLog.length + 1 := by
  have hBlive :
      (setTemperatureDurationAction (setTemperatureDurationAction st t1) t2).liveTimers =
      (st.nextTimerId + 1) :: ((st.nextTimerId :: (match st.boostTimeout with
        | some tid => st.liveTimers.erase tid
        | none => st.liveTimers)).erase st.nextTimerId) := rfl
  have hsub : ∀ x ∈ (match st.boostTimeout with
      | some tid => st.liveTimers.erase tid
      | none => st.liveTimers), x < st.nextTimerId := by
    cases st.boostTimeout with
    | none => exact fun x hx => hfresh x hx
    | some tid0 => exact fun x hx => hfresh x (List.erase_subset tid0 st.liveTimers hx)
  have hnot : st.nextTimerId ∉
      (setTemperatureDurationAction (setTemperatureDurationAction st t1) t2).liveTimers := by
    rw [hBlive, List.erase_cons_head]
    intro hmem
    rcases List.mem_cons.mp hmem with h | h
    · omega
    · exact absurd (hsub _ h) (by omega)
  refine ⟨hnot, ?_, ?_⟩
  · simp only [fireTimer]
    rw [if_neg hnot]
  · have hmB : (setTemperatureDurationAction st t1).nextTimerId ∈
        (setTemperatureDurationAction (setTemperatureDurationAction st t1) t2).liveTimers :=
      List.mem_cons_self _ _
    simp only [fireTimer]
    rw [if_pos hmB]
    show ((setTemperatureDurationAction (setTemperatureDurationAction st t1) t2).restoredLog
        ++ [t1]).length =
      (setTemperatureDurationAction
        (setTemperatureDurationAction st t1) t2).restoredLog.length + 1
    simp

/-- Witness for C9 from a fresh device state: after boosting to 25 and
then to 22, firing the first boost timer changes nothing, and firing
the second boost timer executes the one restoration. -/
theorem second_override_cancels_first_witness :
    fireTimer (setTemperatureDurationAction (setTemperatureDurationAction
        ⟨20, none, none, none, [], 0, []⟩ 25) 22) 0 =
      setTemperatureDurationAction (setTemperatureDurationAction
        ⟨20, none, none, none, [], 0, []⟩ 25) 22 ∧
    (fireTimer (setTemperatureDurationAction (setTemperatureDurationAction
        ⟨20, none, none, none, [], 0, []⟩ 25) 22) 1).restoredLog.length = 1 := by
  have h := second_override_cancels_first ⟨20, none, none, none, [], 0, []⟩ 25 22
    (fun tid htid => absurd htid (List.not_mem_nil tid))
  exact ⟨h.2.1, h.2.2⟩

/-- C10: the value a temperature-duration override will restore is the
target_temperature capability value read at the moment the override is
scheduled: a single override restores the pre-boost target, and when a
second override is scheduled while the first is active, the surviving
restoration sets the temperature t1 of the first override, not the target
that was in effect before any override. -/
theorem restoration_restores_value_at_scheduling (st : BoostState) (t1 t2 : ℚ) :
    (setTemperatureDurationAction st t1).previousTemperature = some st.capabilityTarget ∧
    (setTemperatureDurationAction st t1).capabilityTarget = t1 ∧
    (fireTimer (setTemperatureDurationAction st t1) st.nextTimerId).restoredLog =
      st.restoredLog ++ [st.capabilityTarget] ∧
    (setTemperatureDurationAction (setTemperatureDurationAction st t1) t2).previousTemperature =
      some t1 ∧
    (fireTimer (setTemperatureDurationAction (setTemperatureDurationAction st t1) t2)
        (setTemperatureDurationAction st t1).nextTimerId).restoredLog =
      st.restoredLog ++ [t1] ∧
    (fireTimer (setTemperatureDurationAction (setTemperatureDurationAction st t1) t2)
        (setTemperatureDurationAction st t1).nextTimerId).capabilityTarget = t1 := by
  have hmA : st.nextTimerId ∈ (setTemperatureDurationAction st t1).liveTimers :=
    List.mem_cons_self _ _
  have hmB : (setTemperatureDurationAction st t1).nextTimerId ∈
      (setTemperatureDurationAction (setTemperatureDurationAction st t1) t2).liveTimers :=
    List.mem_cons_self _ _
  refine ⟨rfl, rfl, ?_, rfl, ?_, ?_⟩
  · simp only [fireTimer]
    rw [if_pos hmA]
    rfl
  · simp only [fireTimer]
    rw [if_pos hmB]
    rfl
  · simp only [fireTimer]
    rw [if_pos hmB]
    rfl

end AtagOne
